import Mathlib

/-!
Verification of the minimal-cicd-sample repository (scripts/init.py,
scripts/deploy.py, scripts/check.py) against its natural-language
specification.

The three Python scripts are shallowly embedded as pure Lean functions.
External commands (gcloud, gh, terraform, helm, curl, the nested check
script) are black boxes per the spec, so every embedded flow is
parameterised by an Oracle assigning each issued command an exit status
and a captured stdout text.  A run is summarised by the ordered trace of
issued commands and the final process exit code (an uncaught Python
exception and sys.exit(1) both terminate the interpreter with status 1).

Model conventions, stated once here:
  - JSON values read from sa-key.json or from the GCP_SA_KEY variable are
    modelled already parsed (the separate fatal path for syntactically
    malformed JSON is outside the model; no claim exercises it).  The
    credential file is modelled as a JSON object (association list), the
    service-account-key shape the spec's section 6 requires.
  - Python truthiness (used by statements of the form if x:) and the
    str() rendering used by f-strings are modelled explicitly.
  - random.choices(population, k=6) is modelled by a function from draw
    position to an index into the 36-character population.
-/

namespace MinimalCicd

/-- A parsed JSON value (numbers restricted to integers; the scripts never
compute with numeric credential fields). -/
inductive Json where
  | null : Json
  | boolean : Bool → Json
  | num : Int → Json
  | str : String → Json
  | arr : List Json → Json
  | obj : List (String × Json) → Json

/-- A JSON object body, the parsed shape of a service-account key file. -/
abbrev JObj := List (String × Json)

/-- Python truthiness of a JSON value: None, False, 0, empty string, empty
list and empty dict are falsy. -/
def Json.truthy : Json → Bool
  | .null => false
  | .boolean b => b
  | .num n => n != 0
  | .str s => s != ""
  | .arr xs => !xs.isEmpty
  | .obj fs => !fs.isEmpty

/-- Python str() of a JSON value as used inside f-strings.  The scripts only
ever interpolate string (and conceivably numeric) fields; the container
renderings are abstracted. -/
def pyStr : Json → String
  | .null => "None"
  | .boolean b => if b then "True" else "False"
  | .num n => toString n
  | .str s => s
  | .arr _ => "<list>"
  | .obj _ => "<dict>"

/-- Python str.strip() on captured stdout: whitespace removed from both
ends, written with structural recursion over the character list. -/
def pyStrip (s : String) : String :=
  String.mk (((s.toList.dropWhile Char.isWhitespace).reverse.dropWhile
    Char.isWhitespace).reverse)

/-- Dictionary lookup, the model of Python dict.get on a parsed JSON object
(keys of a parsed JSON object are unique). -/
def jlookup : JObj → String → Option Json
  | [], _ => none
  | (k, v) :: rest, key => if k = key then some v else jlookup rest key

/-- Python subscripting value[key]: some result on a dict holding the key,
none when the interpreter would raise (KeyError on a dict without the key,
TypeError on a non-dict). -/
def pyIndex : Json → String → Option Json
  | .obj fs, key => jlookup fs key
  | _, _ => none

/-- The external commands the three scripts can issue, one constructor per
call site (distinct gcloud invocations with different format flags are
distinct commands).  Interpolated identifiers are carried as fields. -/
inductive Cmd where
  | projectsDescribe (projectId : String)
  | projectsCreate (projectId : String)
  | billingLink (projectId billingAccount : String)
  | orgPolicyReset (projectId : String)
  | servicesEnable (projectId : String)
  | saDescribe (saEmail projectId : String)
  | saCreate (saName projectId : String)
  | projectAddIamBinding (projectId saEmail : String)
  | keysCreate (keyFile saEmail projectId : String)
  | ghSecretSetFromFile (secretName file : String)
  | ghSecretSetBody (secretName body : String)
  | wifPoolDescribe (poolId projectId : String)
  | wifPoolCreate (poolId projectId : String)
  | wifProviderDescribe (providerId poolId projectId : String)
  | wifProviderCreateOidc (providerId poolId githubRepo projectId : String)
  | projectsDescribeNumber (projectId : String)
  | saAddIamBinding (saEmail member projectId : String)
  | wifProviderDescribeName (providerId poolId projectId : String)
  | gcloudProjectsDescribeName (projectId : String)
  | terraformInit
  | terraformPlan (projectId : String)
  | helmTemplate (projectId : String)
  | checkScript
  | printAccessToken
  | curlApigee (projectId token : String)
deriving DecidableEq

/-- The environment of external tools: exit status and captured stdout of
each command the scripts may issue. -/
structure Oracle where
  exit : Cmd → Nat
  out : Cmd → String

/-- Result of (a stage of) a script run: the ordered trace of issued
commands and the process exit status (0 = success). -/
structure Outcome where
  trace : List Cmd
  exit : Nat
deriving DecidableEq

/-- Sequencing of two run stages: the second stage runs only when the first
finished with status 0; a fatal first stage ends the run there. -/
def seq (a b : Outcome) : Outcome :=
  if a.exit = 0 then ⟨a.trace ++ b.trace, b.exit⟩ else a

/-- Model of run(cmd) with check=True: the command is issued; non-zero exit
raises CalledProcessError, terminating the interpreter with status 1. -/
def ck1 (o : Oracle) (c : Cmd) : Outcome :=
  ⟨[c], if o.exit c = 0 then 0 else 1⟩

/-- Model of the exists(cmd) idempotency probe of init.py: existence is
reported purely from the exit status of the describe command. -/
def existsProbe (o : Oracle) (c : Cmd) : Bool :=
  o.exit c == 0

/-- Probe a resource and issue the create command exactly when the probe
reported absence (the shared shape of init.py steps 1, 5 and of the WIF
pool and provider steps). -/
def probeThen (o : Oracle) (probeCmd createCmd : Cmd) : Outcome :=
  if o.exit probeCmd = 0 then ⟨[probeCmd], 0⟩
  else ⟨[probeCmd, createCmd], if o.exit createCmd = 0 then 0 else 1⟩

/-- Model of a best-effort subprocess.run without check: the command is
issued and its failure is tolerated. -/
def bestEffort (_o : Oracle) (c : Cmd) : Outcome := ⟨[c], 0⟩

/-- Recognises the key-export command, the trigger of the fallback
decision. -/
def isKeysCreate : Cmd → Bool
  | .keysCreate _ _ _ => true
  | _ => false

/-- Recognises the WIF pool describe probe, the first command setup_wif
issues; counting it in a trace counts invocations of the WIF fallback. -/
def isWifPoolDescribe : Cmd → Bool
  | .wifPoolDescribe _ _ => true
  | _ => false

/-! ## init.py -/

/-- Default of the --github-repo flag. -/
def GITHUB_REPO_DEFAULT : String := "krisrowe/minimal-cicd-sample"

/-- Fixed WIF pool identifier. -/
def POOL_ID : String := "github-pool"

/-- Fixed WIF OIDC provider identifier. -/
def PROVIDER_ID : String := "github-provider"

/-- Well-known local credential file name. -/
def KEY_FILE : String := "sa-key.json"

/-- Parsed command-line arguments of init.py. -/
structure Args where
  project_id : Option String
  billing_account : Option String
  github_repo : String

/-- The 36-character population string.ascii_lowercase + string.digits that
random.choices draws the project-id suffix from. -/
def projectAlphabet : List Char := "abcdefghijklmnopqrstuvwxyz0123456789".toList

/-- Model of random.choices(ascii_lowercase + digits, k=6): the random
source gives, for each of the 6 draw positions, an index into the
36-character population. -/
def randSuffix (rand : Nat → Nat) : String :=
  String.mk ((List.range 6).map (fun i => projectAlphabet.getD (rand i % 36) 'a'))

/-- The freshly generated project id min-cicd-sample-(6 random chars). -/
def autoProjectId (rand : Nat → Nat) : String :=
  "min-cicd-sample-" ++ randSuffix rand

/-- Python truthiness of an optional string (None and the empty string are
falsy). -/
def pyTruthyOptStr : Option String → Bool
  | none => false
  | some s => s != ""

/-- Model of resolve_project_id: CLI argument if truthy, else a truthy
project_id field of an existing sa-key.json, else an auto-generated id.
The key_file parameter is the parsed content of sa-key.json when the file
exists. -/
def resolve_project_id (args : Args) (key_file : Option JObj)
    (rand : Nat → Nat) : String :=
  if pyTruthyOptStr args.project_id then args.project_id.getD "" else
  match key_file with
  | some creds =>
    match jlookup creds "project_id" with
    | some v => if v.truthy then pyStr v else autoProjectId rand
    | none => autoProjectId rand
  | none => autoProjectId rand

/-- Step 1 of init.py main: probe project existence; when absent, a missing
billing account is fatal before any create call, otherwise the project is
created. -/
def s1_project (o : Oracle) (pid : String) (billing_account : Option String) :
    Outcome :=
  if o.exit (.projectsDescribe pid) = 0 then ⟨[.projectsDescribe pid], 0⟩
  else
    match billing_account with
    | none => ⟨[.projectsDescribe pid], 1⟩
    | some _ => seq ⟨[.projectsDescribe pid], 0⟩ (ck1 o (.projectsCreate pid))

/-- Step 2: link billing when a billing account was supplied. -/
def s2_billing (o : Oracle) (pid : String) (billing_account : Option String) :
    Outcome :=
  match billing_account with
  | none => ⟨[], 0⟩
  | some b => ck1 o (.billingLink pid b)

/-- Step 3: best-effort reset of the key-creation org policy. -/
def s3_org_policy (o : Oracle) (pid : String) : Outcome :=
  bestEffort o (.orgPolicyReset pid)

/-- Step 4: enable the fixed API set. -/
def s4_enable_apis (o : Oracle) (pid : String) : Outcome :=
  ck1 o (.servicesEnable pid)

/-- Step 5: probe the service account; create it when absent. -/
def s5_service_account (o : Oracle) (sa_email pid : String) : Outcome :=
  probeThen o (.saDescribe sa_email pid) (.saCreate "deployer" pid)

/-- Step 6: grant the Owner role. -/
def s6_grant_owner (o : Oracle) (pid sa_email : String) : Outcome :=
  ck1 o (.projectAddIamBinding pid sa_email)

/-- WIF fallback step 1: probe the pool; create it when absent. -/
def w1_pool (o : Oracle) (pid : String) : Outcome :=
  probeThen o (.wifPoolDescribe POOL_ID pid) (.wifPoolCreate POOL_ID pid)

/-- WIF fallback step 2: probe the OIDC provider; create it when absent,
restricted to the given source repository. -/
def w2_provider (o : Oracle) (pid github_repo : String) : Outcome :=
  probeThen o (.wifProviderDescribe PROVIDER_ID POOL_ID pid)
    (.wifProviderCreateOidc PROVIDER_ID POOL_ID github_repo pid)

/-- The principal-set member string built in setup_wif from the captured
numeric project number, the fixed pool and the repository attribute. -/
def wifMember (o : Oracle) (pid github_repo : String) : String :=
  "principalSet://iam.googleapis.com/projects/" ++
  pyStrip (o.out (.projectsDescribeNumber pid)) ++
  "/locations/global/workloadIdentityPools/" ++ POOL_ID ++
  "/attribute.repository/" ++ github_repo

/-- The full provider resource name captured in setup_wif. -/
def fullProviderName (o : Oracle) (pid : String) : String :=
  pyStrip (o.out (.wifProviderDescribeName PROVIDER_ID POOL_ID pid))

/-- WIF fallback step 3: capture the numeric project number, then bind
impersonation rights for the principal set naming the pool and repository. -/
def w3_impersonation (o : Oracle) (pid sa_email github_repo : String) :
    Outcome :=
  if o.exit (.projectsDescribeNumber pid) = 0 then
    seq ⟨[.projectsDescribeNumber pid], 0⟩
      (ck1 o (.saAddIamBinding sa_email (wifMember o pid github_repo) pid))
  else ⟨[.projectsDescribeNumber pid], 1⟩

/-- WIF fallback steps 4 and 5: capture the full provider resource name,
then publish the three federated-mode secrets. -/
def w4_publish (o : Oracle) (pid sa_email : String) : Outcome :=
  if o.exit (.wifProviderDescribeName PROVIDER_ID POOL_ID pid) = 0 then
    seq ⟨[.wifProviderDescribeName PROVIDER_ID POOL_ID pid], 0⟩
      (seq (ck1 o (.ghSecretSetBody "WIF_PROVIDER" (fullProviderName o pid)))
        (seq (ck1 o (.ghSecretSetBody "WIF_SA_EMAIL" sa_email))
          (ck1 o (.ghSecretSetBody "GCP_PROJECT_ID" pid))))
  else ⟨[.wifProviderDescribeName PROVIDER_ID POOL_ID pid], 1⟩

/-- Model of setup_wif: the WIF fallback chain; every command in it runs
checked, so any failure is fatal. -/
def setup_wif (o : Oracle) (pid sa_email github_repo : String) : Outcome :=
  seq (w1_pool o pid)
    (seq (w2_provider o pid github_repo)
      (seq (w3_impersonation o pid sa_email github_repo)
        (w4_publish o pid sa_email)))

/-- Step 7: the single key-export attempt; its exit status alone selects
key-file mode (publish key material and project id) or federated mode
(run the WIF fallback). -/
def s7_key_export (o : Oracle) (pid sa_email github_repo : String) : Outcome :=
  if o.exit (.keysCreate KEY_FILE sa_email pid) = 0 then
    seq ⟨[.keysCreate KEY_FILE sa_email pid], 0⟩
      (seq (ck1 o (.ghSecretSetFromFile "GCP_SA_KEY" KEY_FILE))
        (ck1 o (.ghSecretSetBody "GCP_PROJECT_ID" pid)))
  else
    seq ⟨[.keysCreate KEY_FILE sa_email pid], 0⟩
      (setup_wif o pid sa_email github_repo)

/-- The portion of init.py main before the key-export attempt (steps 1-6). -/
def init_pre_key (o : Oracle) (pid sa_email : String)
    (billing_account : Option String) : Outcome :=
  seq (s1_project o pid billing_account)
    (seq (s2_billing o pid billing_account)
      (seq (s3_org_policy o pid)
        (seq (s4_enable_apis o pid)
          (seq (s5_service_account o sa_email pid)
            (s6_grant_owner o pid sa_email)))))

/-- The service-account email derived from the resolved project id. -/
def saEmailOf (pid : String) : String :=
  "deployer@" ++ pid ++ ".iam.gserviceaccount.com"

/-- Model of init.py main: resolve the project id, then run steps 1-7. -/
def init_main (o : Oracle) (args : Args) (key_file : Option JObj)
    (rand : Nat → Nat) : Outcome :=
  let pid := resolve_project_id args key_file rand
  let sa_email := saEmailOf pid
  seq (init_pre_key o pid sa_email args.billing_account)
    (s7_key_export o pid sa_email args.github_repo)

/-! ## deploy.py -/

/-- The base process environment read by deploy.py, restricted to the
variables the script consults.  GCP_SA_KEY is carried already parsed (the
fatal malformed-JSON path is outside the model); presence of the field
models presence of the variable, matching the membership tests the code
performs. -/
structure DEnv where
  gcp_sa_key : Option JObj
  gcp_sa_email : Option String
  gcp_project_id : Option String

/-- The env dict deploy.py builds from os.environ and hands to every
downstream command, restricted to the variables the scripts read or write.
GCP_PROJECT_ID holds a value recovered from credential JSON or copied from
the base environment, hence a Json value. -/
structure AuthContext where
  google_application_credentials : Option String
  google_impersonate_service_account : Option String
  gcp_project_id : Option Json

/-- The copy os.environ.copy() taken at the top of setup_credentials. -/
def baseContext (env : DEnv) : AuthContext :=
  ⟨none, none, env.gcp_project_id.map Json.str⟩

/-- Python dict.setdefault: keep the present value, otherwise insert v. -/
def setdefaultJ (cur : Option Json) (v : Json) : Option Json :=
  match cur with
  | some c => some c
  | none => some v

/-- Result of setup_credentials: the produced context and the temp key path
to clean up (none when the interpreter raised KeyError first), plus whether
the temporary credential file had already been written to disk. -/
structure SetupResult where
  result : Option (AuthContext × Option String)
  tmp_created : Bool

/-- Model of setup_credentials.  Branches in the source order: local
sa-key.json, CI GCP_SA_KEY variable, GCP_SA_EMAIL impersonation, ambient.
The key-file branches evaluate creds of project_id eagerly as the
setdefault argument, so a key object without the field raises KeyError;
in the CI branch this happens after the temporary file was written.
abs_key_path stands for os.path.abspath of sa-key.json and tmp_name for
the name tempfile hands out. -/
def setup_credentials (key_file : Option JObj) (env : DEnv)
    (abs_key_path tmp_name : String) : SetupResult :=
  match key_file with
  | some creds =>
    match jlookup creds "project_id" with
    | none => ⟨none, false⟩
    | some v =>
      ⟨some ({ baseContext env with
          google_application_credentials := some abs_key_path,
          gcp_project_id :=
            setdefaultJ (env.gcp_project_id.map Json.str) v }, none), false⟩
  | none =>
    match env.gcp_sa_key with
    | some creds =>
      match jlookup creds "project_id" with
      | none => ⟨none, true⟩
      | some v =>
        ⟨some ({ baseContext env with
            google_application_credentials := some tmp_name,
            gcp_project_id :=
              setdefaultJ (env.gcp_project_id.map Json.str) v },
          some tmp_name), true⟩
    | none =>
      match env.gcp_sa_email with
      | some email =>
        ⟨some ({ baseContext env with
            google_impersonate_service_account := some email }, none), false⟩
      | none => ⟨some (baseContext env, none), false⟩

/-- Model of get_project_id: the first truthy value among the context entry
and the base environment entry; none models the sys.exit(1) diagnostic
abort. -/
def get_project_id (ctx : AuthContext) (env : DEnv) : Option Json :=
  let v :=
    match ctx.gcp_project_id with
    | some j => if j.truthy then some j else env.gcp_project_id.map Json.str
    | none => env.gcp_project_id.map Json.str
  match v with
  | some j => if j.truthy then some j else none
  | none => none

/-- The body of the try block of deploy.py main: access validation,
terraform init and plan, helm template, and the nested check script, all
checked. -/
def deploy_try (o : Oracle) (pid : String) : Outcome :=
  seq (ck1 o (.gcloudProjectsDescribeName pid))
    (seq (ck1 o .terraformInit)
      (seq (ck1 o (.terraformPlan pid))
        (seq (ck1 o (.helmTemplate pid)) (ck1 o .checkScript))))

/-- Result of a deploy.py run: issued commands, exit status, and whether
the temporary credential file is still on disk after the process ends. -/
structure DeployResult where
  trace : List Cmd
  exit : Nat
  tmp_file_remains : Bool
deriving DecidableEq

/-- Model of deploy.py main.  The try/finally block that deletes the
temporary key file encloses only the provisioning sequence: a KeyError
inside setup_credentials or the sys.exit(1) of get_project_id terminates
the interpreter before the block is entered, leaving an already-written
temporary file on disk. -/
def deploy_main (key_file : Option JObj) (env : DEnv)
    (abs_key_path tmp_name : String) (o : Oracle) : DeployResult :=
  let s := setup_credentials key_file env abs_key_path tmp_name
  match s.result with
  | none => ⟨[], 1, s.tmp_created⟩
  | some (ctx, tmp_key_path) =>
    match get_project_id ctx env with
    | none => ⟨[], 1, tmp_key_path.isSome⟩
    | some pj =>
      let t := deploy_try o (pyStr pj)
      ⟨t.trace, t.exit, false⟩

/-! ## check.py -/

/-- Model of load_credentials: the parsed local key file takes precedence
over the parsed GCP_SA_KEY variable; arbitrary JSON shapes are kept since
check.py applies truthiness and subscripting to the result. -/
def load_credentials (key_file : Option Json) (env_sa_key : Option Json) :
    Option Json :=
  match key_file with
  | some j => some j
  | none => env_sa_key

/-- Presence of the three required directories. -/
structure DirState where
  terraform : Bool
  helm : Bool
  scripts : Bool

/-- Model of check_structure: all three required directories present. -/
def check_structure (d : DirState) : Bool :=
  d.terraform && d.helm && d.scripts

/-- Model of check_apigee_api, returning true when the function returns
normally and false when the interpreter would raise.  A failed token probe
skips the check; the curl command is issued unchecked and its trimmed
stdout is the HTTP status text; on status 200 the response file is parsed
and its name field read, which raises unless the body is a JSON object
(resp_body none models an unparsable body). -/
def check_apigee_api (o : Oracle) (pid : String) (resp_body : Option Json) :
    Bool :=
  if o.exit .printAccessToken = 0 then
    let token := pyStrip (o.out .printAccessToken)
    let http_code := pyStrip (o.out (.curlApigee pid token))
    if http_code = "200" then
      match resp_body with
      | some (.obj _) => true
      | _ => false
    else true
  else true

/-- Model of check.py main, returning the process exit status.  Missing
required directories exit 1; a truthy credential value is subscripted with
project_id (raising on absence, exit 1) and drives the best-effort API
check; falsy or absent credentials skip the check. -/
def check_main (d : DirState) (key_file env_sa_key : Option Json)
    (o : Oracle) (resp_body : Option Json) : Nat :=
  if !check_structure d then 1
  else
    match load_credentials key_file env_sa_key with
    | some creds =>
      if creds.truthy then
        match pyIndex creds "project_id" with
        | none => 1
        | some v => if check_apigee_api o (pyStr v) resp_body then 0 else 1
      else 0
    | none => 0

/-! ## auxiliary definitions for the verification -/

/-- Decidable check that a string matches min-cicd-sample-[a-z0-9] with a
suffix of exactly 6 characters drawn from the 36-character population. -/
def matchesProjectIdPattern (s : String) : Bool :=
  (s.toList.take 16 == "min-cicd-sample-".toList)
  && ((s.toList.drop 16).length == 6)
  && (s.toList.drop 16).all projectAlphabet.contains

/-- An environment in which every external command succeeds and prints
nothing. -/
def oracleAllOk : Oracle := ⟨fun _ => 0, fun _ => ""⟩

/-- An environment in which exactly the project-describe probe of init.py
fails and every other command succeeds. -/
def oracleProjectAbsent : Oracle :=
  ⟨fun c => match c with | .projectsDescribe _ => 1 | _ => 0, fun _ => ""⟩

/-- An environment in which the key-export command is denied and everything
else succeeds. -/
def oracleKeyDenied : Oracle :=
  ⟨fun c => match c with | .keysCreate _ _ _ => 1 | _ => 0, fun _ => ""⟩

/-- An environment in which the key export is denied and, inside the WIF
fallback, the pool probe reports absence and the pool creation itself
fails. -/
def oracleKeyDeniedPoolFails : Oracle :=
  ⟨fun c => match c with
    | .keysCreate _ _ _ => 1
    | .wifPoolDescribe _ _ => 1
    | .wifPoolCreate _ _ => 1
    | _ => 0, fun _ => ""⟩

/-- An environment for check.py in which a token is available and the
Apigee endpoint answers HTTP 200. -/
def oracleHttp200 : Oracle :=
  ⟨fun _ => 0, fun c => match c with | .curlApigee _ _ => "200" | _ => ""⟩

/-- Default arguments of init.py: no positional project id, no billing
account, default repository. -/
def argsDefault : Args := ⟨none, none, GITHUB_REPO_DEFAULT⟩

/-- A zero random source; it draws index 0 six times, generating the
suffix aaaaaa. -/
def rand0 : Nat → Nat := fun _ => 0

/-! ## general lemmas about sequencing -/

theorem seq_exit (a b : Outcome) :
    (seq a b).exit = if a.exit = 0 then b.exit else a.exit := by
  unfold seq; split <;> rfl

theorem seq_of_exit_ne (a b : Outcome) (h : a.exit ≠ 0) : seq a b = a := by
  unfold seq; simp [h]

theorem mem_seq_trace (c : Cmd) (a b : Outcome) :
    c ∈ (seq a b).trace ↔ c ∈ a.trace ∨ (a.exit = 0 ∧ c ∈ b.trace) := by
  unfold seq; split <;> simp_all

theorem countP_seq_trace (p : Cmd → Bool) (a b : Outcome) :
    (seq a b).trace.countP p
      = a.trace.countP p + if a.exit = 0 then b.trace.countP p else 0 := by
  unfold seq; split <;> simp [List.countP_append]

theorem mem_ck1 (o : Oracle) (c d : Cmd) : d ∈ (ck1 o c).trace ↔ d = c := by
  simp [ck1]

theorem mem_probeThen (o : Oracle) (pc cc d : Cmd) :
    d ∈ (probeThen o pc cc).trace
      ↔ d = pc ∨ (o.exit pc ≠ 0 ∧ d = cc) := by
  unfold probeThen; split <;> simp_all

/-! ## trace characterisation of the init.py stages -/

theorem mem_s1 (o : Oracle) (pid : String) (b : Option String) (c : Cmd) :
    c ∈ (s1_project o pid b).trace
      ↔ c = .projectsDescribe pid
        ∨ (o.exit (.projectsDescribe pid) ≠ 0 ∧ b.isSome
            ∧ c = .projectsCreate pid) := by
  unfold s1_project
  cases b <;> split <;> simp_all [seq, ck1]

theorem mem_s2 (o : Oracle) (pid : String) (b : Option String) (c : Cmd) :
    c ∈ (s2_billing o pid b).trace
      ↔ ∃ bb, b = some bb ∧ c = .billingLink pid bb := by
  cases b <;> simp [s2_billing, ck1]

theorem mem_s3 (o : Oracle) (pid : String) (c : Cmd) :
    c ∈ (s3_org_policy o pid).trace ↔ c = .orgPolicyReset pid := by
  simp [s3_org_policy, bestEffort]

theorem mem_s4 (o : Oracle) (pid : String) (c : Cmd) :
    c ∈ (s4_enable_apis o pid).trace ↔ c = .servicesEnable pid := by
  simp [s4_enable_apis, ck1]

theorem mem_s5 (o : Oracle) (sa_email pid : String) (c : Cmd) :
    c ∈ (s5_service_account o sa_email pid).trace
      ↔ c = .saDescribe sa_email pid
        ∨ (o.exit (.saDescribe sa_email pid) ≠ 0
            ∧ c = .saCreate "deployer" pid) := by
  exact mem_probeThen ..

theorem mem_s6 (o : Oracle) (pid sa_email : String) (c : Cmd) :
    c ∈ (s6_grant_owner o pid sa_email).trace
      ↔ c = .projectAddIamBinding pid sa_email := by
  simp [s6_grant_owner, ck1]

theorem mem_w1 (o : Oracle) (pid : String) (c : Cmd) :
    c ∈ (w1_pool o pid).trace
      ↔ c = .wifPoolDescribe POOL_ID pid
        ∨ (o.exit (.wifPoolDescribe POOL_ID pid) ≠ 0
            ∧ c = .wifPoolCreate POOL_ID pid) := by
  exact mem_probeThen ..

theorem mem_w2 (o : Oracle) (pid github_repo : String) (c : Cmd) :
    c ∈ (w2_provider o pid github_repo).trace
      ↔ c = .wifProviderDescribe PROVIDER_ID POOL_ID pid
        ∨ (o.exit (.wifProviderDescribe PROVIDER_ID POOL_ID pid) ≠ 0
            ∧ c = .wifProviderCreateOidc PROVIDER_ID POOL_ID github_repo pid) := by
  exact mem_probeThen ..

theorem mem_w3 (o : Oracle) (pid sa_email github_repo : String) (c : Cmd) :
    c ∈ (w3_impersonation o pid sa_email github_repo).trace
      ↔ c = .projectsDescribeNumber pid
        ∨ (o.exit (.projectsDescribeNumber pid) = 0
            ∧ c = .saAddIamBinding sa_email (wifMember o pid github_repo) pid) := by
  unfold w3_impersonation
  split <;> simp_all [seq, ck1]

theorem mem_w4 (o : Oracle) (pid sa_email : String) (c : Cmd) :
    c ∈ (w4_publish o pid sa_email).trace
      ↔ c = .wifProviderDescribeName PROVIDER_ID POOL_ID pid
        ∨ (o.exit (.wifProviderDescribeName PROVIDER_ID POOL_ID pid) = 0
            ∧ (c = .ghSecretSetBody "WIF_PROVIDER" (fullProviderName o pid)
              ∨ (o.exit (.ghSecretSetBody "WIF_PROVIDER" (fullProviderName o pid)) = 0
                  ∧ (c = .ghSecretSetBody "WIF_SA_EMAIL" sa_email
                    ∨ (o.exit (.ghSecretSetBody "WIF_SA_EMAIL" sa_email) = 0
                        ∧ c = .ghSecretSetBody "GCP_PROJECT_ID" pid))))) := by
  simp only [w4_publish, seq, ck1]
  split_ifs <;> simp_all

theorem mem_setup_wif (o : Oracle) (pid sa_email github_repo : String) (c : Cmd) :
    c ∈ (setup_wif o pid sa_email github_repo).trace
      ↔ c ∈ (w1_pool o pid).trace
        ∨ ((w1_pool o pid).exit = 0
            ∧ (c ∈ (w2_provider o pid github_repo).trace
              ∨ ((w2_provider o pid github_repo).exit = 0
                  ∧ (c ∈ (w3_impersonation o pid sa_email github_repo).trace
                    ∨ ((w3_impersonation o pid sa_email github_repo).exit = 0
                        ∧ c ∈ (w4_publish o pid sa_email).trace))))) := by
  simp [setup_wif, mem_seq_trace]

theorem mem_s7 (o : Oracle) (pid sa_email github_repo : String) (c : Cmd) :
    c ∈ (s7_key_export o pid sa_email github_repo).trace
      ↔ c = .keysCreate KEY_FILE sa_email pid
        ∨ (o.exit (.keysCreate KEY_FILE sa_email pid) = 0
            ∧ (c = .ghSecretSetFromFile "GCP_SA_KEY" KEY_FILE
              ∨ (o.exit (.ghSecretSetFromFile "GCP_SA_KEY" KEY_FILE) = 0
                  ∧ c = .ghSecretSetBody "GCP_PROJECT_ID" pid)))
        ∨ (o.exit (.keysCreate KEY_FILE sa_email pid) ≠ 0
            ∧ c ∈ (setup_wif o pid sa_email github_repo).trace) := by
  simp only [s7_key_export, seq, ck1]
  split_ifs <;> simp_all

theorem mem_init_pre_key (o : Oracle) (pid sa_email : String)
    (b : Option String) (c : Cmd) :
    c ∈ (init_pre_key o pid sa_email b).trace
      ↔ c ∈ (s1_project o pid b).trace
        ∨ ((s1_project o pid b).exit = 0
            ∧ (c ∈ (s2_billing o pid b).trace
              ∨ ((s2_billing o pid b).exit = 0
                  ∧ (c ∈ (s3_org_policy o pid).trace
                    ∨ ((s3_org_policy o pid).exit = 0
                        ∧ (c ∈ (s4_enable_apis o pid).trace
                          ∨ ((s4_enable_apis o pid).exit = 0
                              ∧ (c ∈ (s5_service_account o sa_email pid).trace
                                ∨ ((s5_service_account o sa_email pid).exit = 0
                                    ∧ c ∈ (s6_grant_owner o pid sa_email).trace))))))))) := by
  simp [init_pre_key, mem_seq_trace]

theorem mem_init_main (o : Oracle) (args : Args) (key_file : Option JObj)
    (rand : Nat → Nat) (c : Cmd) :
    c ∈ (init_main o args key_file rand).trace
      ↔ c ∈ (init_pre_key o (resolve_project_id args key_file rand)
              (saEmailOf (resolve_project_id args key_file rand))
              args.billing_account).trace
        ∨ ((init_pre_key o (resolve_project_id args key_file rand)
              (saEmailOf (resolve_project_id args key_file rand))
              args.billing_account).exit = 0
            ∧ c ∈ (s7_key_export o (resolve_project_id args key_file rand)
                    (saEmailOf (resolve_project_id args key_file rand))
                    args.github_repo).trace) := by
  simp [init_main, mem_seq_trace]

/-! ## counting and exit lemmas for the init.py run -/

theorem countP_keys_init_pre_key (o : Oracle) (pid sa_email : String)
    (b : Option String) :
    (init_pre_key o pid sa_email b).trace.countP isKeysCreate = 0 := by
  rw [List.countP_eq_zero]
  intro c hc hk
  cases c <;> simp [isKeysCreate] at hk
  simp [mem_init_pre_key, mem_s1, mem_s2, mem_s3, mem_s4, mem_s5, mem_s6] at hc

theorem countP_pool_init_pre_key (o : Oracle) (pid sa_email : String)
    (b : Option String) :
    (init_pre_key o pid sa_email b).trace.countP isWifPoolDescribe = 0 := by
  rw [List.countP_eq_zero]
  intro c hc hk
  cases c <;> simp [isWifPoolDescribe] at hk
  simp [mem_init_pre_key, mem_s1, mem_s2, mem_s3, mem_s4, mem_s5, mem_s6] at hc

theorem countP_keys_setup_wif (o : Oracle) (pid sa_email github_repo : String) :
    (setup_wif o pid sa_email github_repo).trace.countP isKeysCreate = 0 := by
  rw [List.countP_eq_zero]
  intro c hc hk
  cases c <;> simp [isKeysCreate] at hk
  simp [mem_setup_wif, mem_w1, mem_w2, mem_w3, mem_w4] at hc

theorem countP_pool_wif_rest (o : Oracle) (pid sa_email github_repo : String) :
    ((seq (w2_provider o pid github_repo)
      (seq (w3_impersonation o pid sa_email github_repo)
        (w4_publish o pid sa_email))).trace.countP isWifPoolDescribe) = 0 := by
  rw [List.countP_eq_zero]
  intro c hc hk
  cases c <;> simp [isWifPoolDescribe] at hk
  simp [mem_seq_trace, mem_w2, mem_w3, mem_w4] at hc

theorem countP_pool_w1 (o : Oracle) (pid : String) :
    (w1_pool o pid).trace.countP isWifPoolDescribe = 1 := by
  unfold w1_pool probeThen
  split_ifs <;> simp [isWifPoolDescribe]

theorem countP_pool_setup_wif (o : Oracle) (pid sa_email github_repo : String) :
    (setup_wif o pid sa_email github_repo).trace.countP isWifPoolDescribe = 1 := by
  unfold setup_wif
  rw [countP_seq_trace, countP_pool_w1, countP_pool_wif_rest]
  split <;> rfl

theorem countP_keys_s7 (o : Oracle) (pid sa_email github_repo : String) :
    (s7_key_export o pid sa_email github_repo).trace.countP isKeysCreate = 1 := by
  unfold s7_key_export
  split_ifs with h
  · simp only [seq, ck1]
    split_ifs <;> simp [isKeysCreate]
  · rw [seq, if_pos rfl]
    simp [List.countP_append, countP_keys_setup_wif, isKeysCreate]

theorem countP_pool_s7 (o : Oracle) (pid sa_email github_repo : String) :
    (s7_key_export o pid sa_email github_repo).trace.countP isWifPoolDescribe
      = if o.exit (.keysCreate KEY_FILE sa_email pid) = 0 then 0 else 1 := by
  unfold s7_key_export
  split_ifs with h
  · simp only [seq, ck1]
    split_ifs <;> simp [isWifPoolDescribe]
  · rw [seq, if_pos rfl]
    simp [List.countP_append, countP_pool_setup_wif, isWifPoolDescribe]

theorem s7_exit_key_ok (o : Oracle) (pid sa_email github_repo : String)
    (h : o.exit (.keysCreate KEY_FILE sa_email pid) = 0)
    (h1 : o.exit (.ghSecretSetFromFile "GCP_SA_KEY" KEY_FILE) = 0)
    (h2 : o.exit (.ghSecretSetBody "GCP_PROJECT_ID" pid) = 0) :
    (s7_key_export o pid sa_email github_repo).exit = 0 := by
  simp [s7_key_export, h, h1, h2, seq, ck1]

theorem s7_exit_key_fail (o : Oracle) (pid sa_email github_repo : String)
    (h : o.exit (.keysCreate KEY_FILE sa_email pid) ≠ 0) :
    (s7_key_export o pid sa_email github_repo).exit
      = (setup_wif o pid sa_email github_repo).exit := by
  simp [s7_key_export, h, seq]

/-! ## membership of the create commands in a full init.py run -/

theorem mem_projectsDescribe_init_main (o : Oracle) (args : Args)
    (key_file : Option JObj) (rand : Nat → Nat) :
    Cmd.projectsDescribe (resolve_project_id args key_file rand)
      ∈ (init_main o args key_file rand).trace := by
  rw [mem_init_main, mem_init_pre_key, mem_s1]
  simp

theorem mem_projectsCreate_init_main (o : Oracle) (args : Args)
    (key_file : Option JObj) (rand : Nat → Nat) :
    Cmd.projectsCreate (resolve_project_id args key_file rand)
        ∈ (init_main o args key_file rand).trace
      ↔ (Cmd.projectsDescribe (resolve_project_id args key_file rand)
            ∈ (init_main o args key_file rand).trace
          ∧ o.exit (.projectsDescribe (resolve_project_id args key_file rand)) ≠ 0
          ∧ args.billing_account.isSome) := by
  rw [mem_init_main, mem_init_main]
  simp only [mem_init_pre_key, mem_s1, mem_s2, mem_s3, mem_s4, mem_s5, mem_s6,
    mem_s7, mem_setup_wif, mem_w1, mem_w2, mem_w3, mem_w4]
  simp

theorem mem_saCreate_init_main (o : Oracle) (args : Args)
    (key_file : Option JObj) (rand : Nat → Nat) :
    Cmd.saCreate "deployer" (resolve_project_id args key_file rand)
        ∈ (init_main o args key_file rand).trace
      ↔ (Cmd.saDescribe (saEmailOf (resolve_project_id args key_file rand))
            (resolve_project_id args key_file rand)
            ∈ (init_main o args key_file rand).trace
          ∧ o.exit (.saDescribe (saEmailOf (resolve_project_id args key_file rand))
              (resolve_project_id args key_file rand)) ≠ 0) := by
  rw [mem_init_main, mem_init_main]
  simp only [mem_init_pre_key, mem_s1, mem_s2, mem_s3, mem_s4, mem_s5, mem_s6,
    mem_s7, mem_setup_wif, mem_w1, mem_w2, mem_w3, mem_w4]
  simp
  tauto

theorem mem_wifPoolCreate_init_main (o : Oracle) (args : Args)
    (key_file : Option JObj) (rand : Nat → Nat) :
    Cmd.wifPoolCreate POOL_ID (resolve_project_id args key_file rand)
        ∈ (init_main o args key_file rand).trace
      ↔ (Cmd.wifPoolDescribe POOL_ID (resolve_project_id args key_file rand)
            ∈ (init_main o args key_file rand).trace
          ∧ o.exit (.wifPoolDescribe POOL_ID (resolve_project_id args key_file rand)) ≠ 0) := by
  rw [mem_init_main, mem_init_main]
  simp only [mem_init_pre_key, mem_s1, mem_s2, mem_s3, mem_s4, mem_s5, mem_s6,
    mem_s7, mem_setup_wif, mem_w1, mem_w2, mem_w3, mem_w4]
  simp
  tauto

theorem mem_wifProviderCreate_init_main (o : Oracle) (args : Args)
    (key_file : Option JObj) (rand : Nat → Nat) :
    Cmd.wifProviderCreateOidc PROVIDER_ID POOL_ID args.github_repo
        (resolve_project_id args key_file rand)
        ∈ (init_main o args key_file rand).trace
      ↔ (Cmd.wifProviderDescribe PROVIDER_ID POOL_ID
            (resolve_project_id args key_file rand)
            ∈ (init_main o args key_file rand).trace
          ∧ o.exit (.wifProviderDescribe PROVIDER_ID POOL_ID
              (resolve_project_id args key_file rand)) ≠ 0) := by
  rw [mem_init_main, mem_init_main]
  simp only [mem_init_pre_key, mem_s1, mem_s2, mem_s3, mem_s4, mem_s5, mem_s6,
    mem_s7, mem_setup_wif, mem_w1, mem_w2, mem_w3, mem_w4]
  simp
  tauto

/-! ## the generated project id matches the documented pattern -/

theorem projectAlphabet_getD_mem (n : Nat) :
    projectAlphabet.getD n 'a' ∈ projectAlphabet := by
  by_cases h : n < projectAlphabet.length
  · rw [List.getD_eq_getElem _ _ h]
    exact List.getElem_mem h
  · rw [List.getD_eq_default _ _ (by omega)]
    decide

theorem autoProjectId_matches (rand : Nat → Nat) :
    matchesProjectIdPattern (autoProjectId rand) = true := by
  have hdata : (autoProjectId rand).toList
      = "min-cicd-sample-".toList
        ++ (List.range 6).map (fun i => projectAlphabet.getD (rand i % 36) 'a') := by
    simp [autoProjectId, randSuffix, String.toList]
  unfold matchesProjectIdPattern
  rw [hdata]
  rw [List.take_append_of_le_length (by decide),
    List.drop_append_of_le_length (by decide)]
  have hpre : ("min-cicd-sample-".toList).take 16 = "min-cicd-sample-".toList := by
    decide
  have hdrop : ("min-cicd-sample-".toList).drop 16 = ([] : List Char) := by decide
  rw [hpre, hdrop]
  simp only [List.nil_append, Bool.and_eq_true, beq_iff_eq, List.length_map,
    List.length_range]
  refine ⟨⟨trivial, trivial⟩, ?_⟩
  rw [List.all_eq_true]
  intro c hc
  simp only [List.mem_map, List.mem_range] at hc
  obtain ⟨i, -, rfl⟩ := hc
  exact List.elem_eq_true_of_mem (projectAlphabet_getD_mem (rand i % 36))

/-! ## claims C3, C4, C6, C10 -/

/-- C3, counterexample: with the project-describe probe failing (absence
reported) and no billing account supplied, the run makes no project-create
call, so a create command is not issued if and only if the probe reported
absence. -/
theorem c3_probe_create_counterexample :
    existsProbe oracleProjectAbsent (Cmd.projectsDescribe "min-cicd-sample-aaaaaa") = false
    ∧ Cmd.projectsDescribe "min-cicd-sample-aaaaaa"
        ∈ (init_main oracleProjectAbsent argsDefault none rand0).trace
    ∧ Cmd.projectsCreate "min-cicd-sample-aaaaaa"
        ∉ (init_main oracleProjectAbsent argsDefault none rand0).trace := by
  refine ⟨rfl, by decide, by decide⟩

/-- C3 (amended): every probe reports existence exactly when its describe
command exits 0; the service-account, WIF-pool and WIF-provider create
commands are issued exactly when their probe ran and reported absence; the
project-create command additionally requires a billing-account argument,
and absence without one aborts with no create issued. -/
theorem c3_probe_create_amended (o : Oracle) (args : Args)
    (key_file : Option JObj) (rand : Nat → Nat) :
    (∀ c : Cmd, existsProbe o c = true ↔ o.exit c = 0)
    ∧ (Cmd.projectsCreate (resolve_project_id args key_file rand)
          ∈ (init_main o args key_file rand).trace
        ↔ (Cmd.projectsDescribe (resolve_project_id args key_file rand)
              ∈ (init_main o args key_file rand).trace
            ∧ o.exit (.projectsDescribe (resolve_project_id args key_file rand)) ≠ 0
            ∧ args.billing_account.isSome))
    ∧ (Cmd.saCreate "deployer" (resolve_project_id args key_file rand)
          ∈ (init_main o args key_file rand).trace
        ↔ (Cmd.saDescribe (saEmailOf (resolve_project_id args key_file rand))
              (resolve_project_id args key_file rand)
              ∈ (init_main o args key_file rand).trace
            ∧ o.exit (.saDescribe (saEmailOf (resolve_project_id args key_file rand))
                (resolve_project_id args key_file rand)) ≠ 0))
    ∧ (Cmd.wifPoolCreate POOL_ID (resolve_project_id args key_file rand)
          ∈ (init_main o args key_file rand).trace
        ↔ (Cmd.wifPoolDescribe POOL_ID (resolve_project_id args key_file rand)
              ∈ (init_main o args key_file rand).trace
            ∧ o.exit (.wifPoolDescribe POOL_ID (resolve_project_id args key_file rand)) ≠ 0))
    ∧ (Cmd.wifProviderCreateOidc PROVIDER_ID POOL_ID args.github_repo
          (resolve_project_id args key_file rand)
          ∈ (init_main o args key_file rand).trace
        ↔ (Cmd.wifProviderDescribe PROVIDER_ID POOL_ID
              (resolve_project_id args key_file rand)
              ∈ (init_main o args key_file rand).trace
            ∧ o.exit (.wifProviderDescribe PROVIDER_ID POOL_ID
                (resolve_project_id args key_file rand)) ≠ 0)) :=
  ⟨fun c => by simp [existsProbe],
    mem_projectsCreate_init_main o args key_file rand,
    mem_saCreate_init_main o args key_file rand,
    mem_wifPoolCreate_init_main o args key_file rand,
    mem_wifProviderCreate_init_main o args key_file rand⟩

/-- C4, counterexample: a sa-key.json whose project_id field is the empty
string is not returned exactly (the empty string is falsy, so a fresh id is
generated instead), and an empty-string positional argument is not returned
either (the file value wins). -/
theorem c4_project_id_resolution_counterexample :
    resolve_project_id ⟨none, none, GITHUB_REPO_DEFAULT⟩
        (some [("project_id", Json.str "")]) rand0 = "min-cicd-sample-aaaaaa"
    ∧ resolve_project_id ⟨some "", none, GITHUB_REPO_DEFAULT⟩
        (some [("project_id", Json.str "demo-123")]) rand0 = "demo-123" := by
  exact ⟨by decide, by decide⟩

/-- C4 (amended): project-id resolution returns a non-empty positional
argument; otherwise a truthy project_id field of the existing credential
file, returned exactly; otherwise a freshly generated id matching
min-cicd-sample-[a-z0-9] with a 6-character suffix.  An empty positional
argument and a falsy (empty or null) project_id field are treated as
absent. -/
theorem c4_project_id_resolution_amended (args : Args) (key_file : Option JObj)
    (rand : Nat → Nat) :
    (∀ p, args.project_id = some p → p ≠ "" →
        resolve_project_id args key_file rand = p)
    ∧ (∀ creds v, pyTruthyOptStr args.project_id = false → key_file = some creds →
        jlookup creds "project_id" = some v → v.truthy = true →
        resolve_project_id args key_file rand = pyStr v)
    ∧ (pyTruthyOptStr args.project_id = false →
        (∀ creds v, key_file = some creds → jlookup creds "project_id" = some v →
          v.truthy = false) →
        resolve_project_id args key_file rand = autoProjectId rand
        ∧ matchesProjectIdPattern (resolve_project_id args key_file rand) = true) := by
  refine ⟨?_, ?_, ?_⟩
  · intro p hp hne
    simp [resolve_project_id, pyTruthyOptStr, hp, hne]
  · intro creds v ht hk hj hv
    simp [resolve_project_id, ht, hk, hj, hv]
  · intro ht hall
    have hgen : resolve_project_id args key_file rand = autoProjectId rand := by
      rcases key_file with _ | creds
      · simp [resolve_project_id, ht]
      · rcases hj : jlookup creds "project_id" with _ | v
        · simp [resolve_project_id, ht, hj]
        · simp [resolve_project_id, ht, hj, hall creds v rfl hj]
    exact ⟨hgen, hgen ▸ autoProjectId_matches rand⟩

/-- C4, witness: a non-empty explicit argument is returned, and with no
inputs at all the generated id matches the pattern. -/
theorem c4_project_id_resolution_witness :
    resolve_project_id ⟨some "explicit-id", none, GITHUB_REPO_DEFAULT⟩ none rand0
      = "explicit-id"
    ∧ matchesProjectIdPattern (resolve_project_id argsDefault none rand0) = true :=
  ⟨(c4_project_id_resolution_amended ⟨some "explicit-id", none, GITHUB_REPO_DEFAULT⟩
      none rand0).1 "explicit-id" rfl (by decide),
    ((c4_project_id_resolution_amended argsDefault none rand0).2.2 rfl
      (fun _ _ hc _ => nomatch hc)).2⟩

/-- C6: when the project probe reports absence and no billing account was
given, the run stops with exit status 1 having issued only the probe, and
in general the project-create command is only ever issued when the probe
reported absence and a billing account is present. -/
theorem c6_billing_required (o : Oracle) (args : Args) (key_file : Option JObj)
    (rand : Nat → Nat)
    (h1 : o.exit (.projectsDescribe (resolve_project_id args key_file rand)) ≠ 0)
    (h2 : args.billing_account = none) :
    init_main o args key_file rand
      = ⟨[.projectsDescribe (resolve_project_id args key_file rand)], 1⟩
    ∧ Cmd.projectsCreate (resolve_project_id args key_file rand)
        ∉ (init_main o args key_file rand).trace
    ∧ (∀ (o2 : Oracle) (args2 : Args) (kf2 : Option JObj) (rand2 : Nat → Nat),
        Cmd.projectsCreate (resolve_project_id args2 kf2 rand2)
            ∈ (init_main o2 args2 kf2 rand2).trace →
          o2.exit (.projectsDescribe (resolve_project_id args2 kf2 rand2)) ≠ 0
          ∧ args2.billing_account.isSome) := by
  have hrun : init_main o args key_file rand
      = ⟨[.projectsDescribe (resolve_project_id args key_file rand)], 1⟩ := by
    simp [init_main, init_pre_key, s1_project, h1, h2, seq]
  refine ⟨hrun, ?_, ?_⟩
  · rw [hrun]; simp
  · intro o2 args2 kf2 rand2 hmem
    have := (mem_projectsCreate_init_main o2 args2 kf2 rand2).mp hmem
    exact ⟨this.2.1, this.2.2⟩

/-- C6, witness: concrete run in which the probe fails with no billing
account; the run is exactly the single probe with exit status 1. -/
theorem c6_billing_required_witness :
    init_main oracleProjectAbsent argsDefault none rand0
      = ⟨[.projectsDescribe (resolve_project_id argsDefault none rand0)], 1⟩ :=
  (c6_billing_required oracleProjectAbsent argsDefault none rand0
    (by decide) rfl).1

/-- C10: when sa-key.json exists but its project_id field is missing, empty
or null (falsy), resolution behaves exactly as if the file were absent and,
with no positional argument, auto-generates a fresh id. -/
theorem c10_missing_field_falls_through (args : Args) (creds : JObj)
    (rand : Nat → Nat)
    (h : ∀ v, jlookup creds "project_id" = some v → v.truthy = false) :
    resolve_project_id args (some creds) rand = resolve_project_id args none rand
    ∧ (args.project_id = none →
        resolve_project_id args (some creds) rand = autoProjectId rand) := by
  have hfile : resolve_project_id args (some creds) rand
      = resolve_project_id args none rand := by
    unfold resolve_project_id
    split_ifs with ht
    · rfl
    · rcases hj : jlookup creds "project_id" with _ | v
      · simp [hj]
      · simp [hj, h v hj]
  refine ⟨hfile, fun ha => ?_⟩
  rw [hfile]
  simp [resolve_project_id, ha, pyTruthyOptStr]

/-- C10, witness: a file whose project_id is null resolves like an absent
file and generates the patterned id. -/
theorem c10_missing_field_falls_through_witness :
    resolve_project_id argsDefault (some [("project_id", Json.null)]) rand0
      = resolve_project_id argsDefault none rand0 :=
  (c10_missing_field_falls_through argsDefault [("project_id", Json.null)] rand0
    (fun v hv => by
      simp [jlookup] at hv
      subst hv
      rfl)).1

/-! ## claim C2 -/

/-- C2: once the run reaches step 7, the key-export command is attempted
exactly once.  On exit status 0 the WIF fallback never runs and, provided
the two publish commands succeed, the key material and project id are
pushed as secrets and the run ends with status 0.  On non-zero exit status
the WIF fallback runs exactly once, the key export is never re-attempted,
and the run's exit status is exactly that of the fallback chain: 0 when
every fallback command succeeds, non-zero (aborting, with no further
fallback) when any fallback command fails. -/
theorem c2_key_export_fallback (o : Oracle) (args : Args)
    (key_file : Option JObj) (rand : Nat → Nat)
    (hpre : (init_pre_key o (resolve_project_id args key_file rand)
        (saEmailOf (resolve_project_id args key_file rand))
        args.billing_account).exit = 0) :
    (init_main o args key_file rand).trace.countP isKeysCreate = 1
    ∧ (o.exit (.keysCreate KEY_FILE (saEmailOf (resolve_project_id args key_file rand))
          (resolve_project_id args key_file rand)) = 0 →
        (init_main o args key_file rand).trace.countP isWifPoolDescribe = 0
        ∧ (o.exit (.ghSecretSetFromFile "GCP_SA_KEY" KEY_FILE) = 0 →
            o.exit (.ghSecretSetBody "GCP_PROJECT_ID"
              (resolve_project_id args key_file rand)) = 0 →
            (init_main o args key_file rand).exit = 0
            ∧ Cmd.ghSecretSetFromFile "GCP_SA_KEY" KEY_FILE
                ∈ (init_main o args key_file rand).trace
            ∧ Cmd.ghSecretSetBody "GCP_PROJECT_ID"
                (resolve_project_id args key_file rand)
                ∈ (init_main o args key_file rand).trace))
    ∧ (o.exit (.keysCreate KEY_FILE (saEmailOf (resolve_project_id args key_file rand))
          (resolve_project_id args key_file rand)) ≠ 0 →
        (init_main o args key_file rand).trace.countP isWifPoolDescribe = 1
        ∧ (init_main o args key_file rand).exit
            = (setup_wif o (resolve_project_id args key_file rand)
                (saEmailOf (resolve_project_id args key_file rand))
                args.github_repo).exit
        ∧ ((setup_wif o (resolve_project_id args key_file rand)
              (saEmailOf (resolve_project_id args key_file rand))
              args.github_repo).exit = 0 →
            (init_main o args key_file rand).exit = 0)
        ∧ ((setup_wif o (resolve_project_id args key_file rand)
              (saEmailOf (resolve_project_id args key_file rand))
              args.github_repo).exit ≠ 0 →
            (init_main o args key_file rand).exit ≠ 0)) := by
  have hmain : init_main o args key_file rand
      = seq (init_pre_key o (resolve_project_id args key_file rand)
              (saEmailOf (resolve_project_id args key_file rand))
              args.billing_account)
            (s7_key_export o (resolve_project_id args key_file rand)
              (saEmailOf (resolve_project_id args key_file rand))
              args.github_repo) := rfl
  refine ⟨?_, fun hk => ⟨?_, fun hg1 hg2 => ⟨?_, ?_, ?_⟩⟩,
    fun hk => ⟨?_, ?_, ?_, ?_⟩⟩
  · rw [hmain, countP_seq_trace, countP_keys_init_pre_key, countP_keys_s7, hpre]
    simp
  · rw [hmain, countP_seq_trace, countP_pool_init_pre_key, countP_pool_s7, hpre]
    simp [hk]
  · rw [hmain, seq_exit, hpre]
    simp [s7_exit_key_ok o _ _ _ hk hg1 hg2]
  · rw [hmain, mem_seq_trace]
    exact Or.inr ⟨hpre, (mem_s7 ..).mpr (Or.inr (Or.inl ⟨hk, Or.inl rfl⟩))⟩
  · rw [hmain, mem_seq_trace]
    exact Or.inr ⟨hpre, (mem_s7 ..).mpr (Or.inr (Or.inl ⟨hk, Or.inr ⟨hg1, rfl⟩⟩))⟩
  · rw [hmain, countP_seq_trace, countP_pool_init_pre_key, countP_pool_s7, hpre]
    simp [hk]
  · rw [hmain, seq_exit, hpre]
    simp [s7_exit_key_fail o _ _ _ hk]
  · intro hw
    rw [hmain, seq_exit, hpre]
    simp [s7_exit_key_fail o _ _ _ hk, hw]
  · intro hw
    rw [hmain, seq_exit, hpre]
    simp [s7_exit_key_fail o _ _ _ hk, hw]

/-- C2, witness: with everything succeeding the key export runs once and no
fallback is invoked; with only the key export denied the fallback runs
exactly once and the run still exits 0. -/
theorem c2_key_export_fallback_witness :
    (init_main oracleAllOk argsDefault none rand0).trace.countP isKeysCreate = 1
    ∧ (init_main oracleKeyDenied argsDefault none rand0).trace.countP
        isWifPoolDescribe = 1
    ∧ (init_main oracleKeyDenied argsDefault none rand0).exit = 0 := by
  refine ⟨(c2_key_export_fallback oracleAllOk argsDefault none rand0 (by decide)).1,
    ((c2_key_export_fallback oracleKeyDenied argsDefault none rand0
        (by decide)).2.2 (by decide)).1,
    ((c2_key_export_fallback oracleKeyDenied argsDefault none rand0
        (by decide)).2.2 (by decide)).2.2.1 (by decide)⟩

/-! ## claims C1, C9, C7, C5 -/

/-- C1: whenever credential resolution returns a context, at most one of
the credential-file variable and the impersonation variable is set, and
the branch taken follows the strict precedence local file, then CI JSON
variable, then impersonation email, then ambient. -/
theorem c1_credential_modes_exclusive (key_file : Option JObj) (env : DEnv)
    (abs_key_path tmp_name : String) (ctx : AuthContext) (tmp : Option String)
    (h : (setup_credentials key_file env abs_key_path tmp_name).result
        = some (ctx, tmp)) :
    ¬(ctx.google_application_credentials.isSome
        ∧ ctx.google_impersonate_service_account.isSome)
    ∧ (key_file.isSome →
        ctx.google_application_credentials = some abs_key_path
        ∧ ctx.google_impersonate_service_account = none)
    ∧ (key_file = none → env.gcp_sa_key.isSome →
        ctx.google_application_credentials = some tmp_name
        ∧ ctx.google_impersonate_service_account = none
        ∧ tmp = some tmp_name)
    ∧ (key_file = none → env.gcp_sa_key = none →
        ∀ e, env.gcp_sa_email = some e →
          ctx.google_application_credentials = none
          ∧ ctx.google_impersonate_service_account = some e)
    ∧ (key_file = none → env.gcp_sa_key = none → env.gcp_sa_email = none →
        ctx.google_application_credentials = none
        ∧ ctx.google_impersonate_service_account = none) := by
  rcases key_file with _ | creds
  · rcases hsk : env.gcp_sa_key with _ | creds2
    · rcases hse : env.gcp_sa_email with _ | e
      · simp only [setup_credentials, hsk, hse, Option.some.injEq,
          Prod.mk.injEq] at h
        obtain ⟨h1, h2⟩ := h
        subst h1; subst h2
        refine ⟨by simp [baseContext], by simp, by simp [hsk], ?_, ?_⟩
        · intro _ _ e he; cases he
        · intro _ _ _; simp [baseContext]
      · simp only [setup_credentials, hsk, hse, Option.some.injEq,
          Prod.mk.injEq] at h
        obtain ⟨h1, h2⟩ := h
        subst h1; subst h2
        refine ⟨by simp [baseContext], by simp, by simp [hsk], ?_, ?_⟩
        · intro _ _ e2 he2
          cases he2
          simp [baseContext]
        · intro _ _ he2; cases he2
    · rcases hj : jlookup creds2 "project_id" with _ | v
      · simp [setup_credentials, hsk, hj] at h
      · simp only [setup_credentials, hsk, hj, Option.some.injEq,
          Prod.mk.injEq] at h
        obtain ⟨h1, h2⟩ := h
        subst h1; subst h2
        refine ⟨by simp [baseContext], by simp, ?_, ?_, ?_⟩
        · intro _ _; simp [baseContext]
        · intro _ hk; cases hk
        · intro _ hk; cases hk
  · rcases hj : jlookup creds "project_id" with _ | v
    · simp [setup_credentials, hj] at h
    · simp only [setup_credentials, hj, Option.some.injEq, Prod.mk.injEq] at h
      obtain ⟨h1, h2⟩ := h
      subst h1; subst h2
      refine ⟨by simp [baseContext], by simp [baseContext], by simp, by simp,
        by simp⟩

/-- C1, witness: the spec scenario with a local sa-key.json holding a
project id; the file branch sets only the credential-file variable. -/
theorem c1_credential_modes_exclusive_witness :
    ¬((⟨some "/abs/sa-key.json", none,
          some (Json.str "demo-123")⟩ : AuthContext).google_application_credentials.isSome
      ∧ (⟨some "/abs/sa-key.json", none,
          some (Json.str "demo-123")⟩ : AuthContext).google_impersonate_service_account.isSome) :=
  (c1_credential_modes_exclusive (some [("project_id", Json.str "demo-123")])
    ⟨none, none, none⟩ "/abs/sa-key.json" "/tmp/key.json"
    ⟨some "/abs/sa-key.json", none, some (Json.str "demo-123")⟩ none rfl).1

/-- C9, counterexample: the impersonation branch produces a context with no
project id even though none was present in the base environment, so not
every branch seeds a project-id default. -/
theorem c9_project_id_seeding_counterexample :
    ((setup_credentials none
        ⟨none, some "deployer@demo-123.iam.gserviceaccount.com", none⟩
        "/abs/sa-key.json" "/tmp/key.json").result.map
          (fun r => r.1.gcp_project_id)) = some none := rfl

/-- C9 (amended): a pre-existing GCP_PROJECT_ID in the base environment is
never overwritten; the two key-file branches seed the project id recovered
from the credential JSON when the base environment has none; the
impersonation and ambient branches leave the project id exactly as in the
base environment (and in particular seed nothing). -/
theorem c9_project_id_seeding_amended (key_file : Option JObj) (env : DEnv)
    (abs_key_path tmp_name : String) :
    (∀ p ctx tmp, env.gcp_project_id = some p →
        (setup_credentials key_file env abs_key_path tmp_name).result
          = some (ctx, tmp) →
        ctx.gcp_project_id = some (Json.str p))
    ∧ (∀ creds v ctx tmp, key_file = some creds →
        jlookup creds "project_id" = some v → env.gcp_project_id = none →
        (setup_credentials key_file env abs_key_path tmp_name).result
          = some (ctx, tmp) →
        ctx.gcp_project_id = some v)
    ∧ (∀ creds v ctx tmp, key_file = none → env.gcp_sa_key = some creds →
        jlookup creds "project_id" = some v → env.gcp_project_id = none →
        (setup_credentials key_file env abs_key_path tmp_name).result
          = some (ctx, tmp) →
        ctx.gcp_project_id = some v)
    ∧ (∀ ctx tmp, key_file = none → env.gcp_sa_key = none →
        (setup_credentials key_file env abs_key_path tmp_name).result
          = some (ctx, tmp) →
        ctx.gcp_project_id = env.gcp_project_id.map Json.str) := by
  refine ⟨?_, ?_, ?_, ?_⟩
  · intro p ctx tmp hp h
    rcases key_file with _ | creds
    · rcases hsk : env.gcp_sa_key with _ | creds2
      · rcases hse : env.gcp_sa_email with _ | e <;>
          · simp only [setup_credentials, hsk, hse, Option.some.injEq,
              Prod.mk.injEq] at h
            obtain ⟨h1, -⟩ := h
            subst h1
            simp [baseContext, hp]
      · rcases hj : jlookup creds2 "project_id" with _ | v
        · simp [setup_credentials, hsk, hj] at h
        · simp only [setup_credentials, hsk, hj, Option.some.injEq,
            Prod.mk.injEq] at h
          obtain ⟨h1, -⟩ := h
          subst h1
          simp [baseContext, setdefaultJ, hp]
    · rcases hj : jlookup creds "project_id" with _ | v
      · simp [setup_credentials, hj] at h
      · simp only [setup_credentials, hj, Option.some.injEq, Prod.mk.injEq] at h
        obtain ⟨h1, -⟩ := h
        subst h1
        simp [baseContext, setdefaultJ, hp]
  · intro creds v ctx tmp hkf hj hp h
    subst hkf
    simp only [setup_credentials, hj, Option.some.injEq, Prod.mk.injEq] at h
    obtain ⟨h1, -⟩ := h
    subst h1
    simp [baseContext, setdefaultJ, hp]
  · intro creds v ctx tmp hkf hsk hj hp h
    subst hkf
    simp only [setup_credentials, hsk, hj, Option.some.injEq,
      Prod.mk.injEq] at h
    obtain ⟨h1, -⟩ := h
    subst h1
    simp [baseContext, setdefaultJ, hp]
  · intro ctx tmp hkf hsk h
    subst hkf
    rcases hse : env.gcp_sa_email with _ | e <;>
      · simp only [setup_credentials, hsk, hse, Option.some.injEq,
          Prod.mk.injEq] at h
        obtain ⟨h1, -⟩ := h
        subst h1
        simp [baseContext]

/-- C9, witness: the file branch seeds the recovered project id when the
base environment carries none. -/
theorem c9_project_id_seeding_witness :
    (⟨some "/abs/sa-key.json", none,
        some (Json.str "demo-123")⟩ : AuthContext).gcp_project_id
      = some (Json.str "demo-123") :=
  (c9_project_id_seeding_amended (some [("project_id", Json.str "demo-123")])
      ⟨none, none, none⟩ "/abs/sa-key.json" "/tmp/key.json").2.1
    [("project_id", Json.str "demo-123")] (Json.str "demo-123")
    ⟨some "/abs/sa-key.json", none, some (Json.str "demo-123")⟩ none
    rfl rfl rfl rfl

/-- C7, counterexample: two runs that terminate with the temporary
credential file still on disk.  First, GCP_SA_KEY carrying an empty
project_id: the temp file is written, then the project-id-missing abort
fires before the try/finally block, leaving the file behind.  Second,
GCP_SA_KEY without a project_id field: the KeyError fires after the temp
file was written and before the cleanup block. -/
theorem c7_tmp_key_cleanup_counterexample :
    (deploy_main none ⟨some [("project_id", Json.str "")], none, none⟩
        "/abs/sa-key.json" "/tmp/key.json" oracleAllOk)
      = ⟨[], 1, true⟩
    ∧ (deploy_main none ⟨some [], none, none⟩
        "/abs/sa-key.json" "/tmp/key.json" oracleAllOk)
      = ⟨[], 1, true⟩ := ⟨rfl, rfl⟩

/-- C7 (amended): on every run in which credential resolution succeeds and
a project id resolves, i.e. on every run that enters the try/finally block
around the provisioning sequence, the temporary credential file is deleted
regardless of which downstream commands succeed or fail; runs that abort
before the block is entered do not delete it. -/
theorem c7_tmp_key_cleanup_amended (key_file : Option JObj) (env : DEnv)
    (abs_key_path tmp_name : String) (o : Oracle) (ctx : AuthContext)
    (tmp : Option String) (pj : Json)
    (h1 : (setup_credentials key_file env abs_key_path tmp_name).result
        = some (ctx, tmp))
    (h2 : get_project_id ctx env = some pj) :
    (deploy_main key_file env abs_key_path tmp_name o).tmp_file_remains
      = false := by
  simp [deploy_main, h1, h2]

/-- C7, witness: the spec scenario with GCP_SA_KEY holding a project id;
the temp file is gone after the run. -/
theorem c7_tmp_key_cleanup_witness :
    (deploy_main none ⟨some [("project_id", Json.str "demo-xyz")], none, none⟩
        "/abs/sa-key.json" "/tmp/key.json" oracleAllOk).tmp_file_remains
      = false :=
  c7_tmp_key_cleanup_amended none
    ⟨some [("project_id", Json.str "demo-xyz")], none, none⟩
    "/abs/sa-key.json" "/tmp/key.json" oracleAllOk
    ⟨some "/tmp/key.json", none, some (Json.str "demo-xyz")⟩
    (some "/tmp/key.json") (Json.str "demo-xyz") rfl rfl

/-- C5: with no local key file, no usable project id inside GCP_SA_KEY and
no GCP_PROJECT_ID variable, the deploy flow exits with status 1 having
issued no external command at all. -/
theorem c5_missing_project_id_aborts (sa_email : Option String)
    (sa_key : Option JObj) (abs_key_path tmp_name : String) (o : Oracle)
    (h : ∀ creds v, sa_key = some creds →
        jlookup creds "project_id" = some v → v.truthy = false) :
    (deploy_main none ⟨sa_key, sa_email, none⟩ abs_key_path tmp_name o).exit = 1
    ∧ (deploy_main none ⟨sa_key, sa_email, none⟩ abs_key_path tmp_name o).trace
        = [] := by
  rcases sa_key with _ | creds
  · rcases sa_email with _ | e <;> exact ⟨rfl, rfl⟩
  · rcases hj : jlookup creds "project_id" with _ | v
    · constructor <;>
        simp [deploy_main, setup_credentials, hj]
    · have hv := h creds v rfl hj
      constructor <;>
        simp [deploy_main, setup_credentials, get_project_id, baseContext,
          setdefaultJ, hj, hv]

/-- C5, witness: the fully empty environment aborts with no commands. -/
theorem c5_missing_project_id_aborts_witness :
    (deploy_main none ⟨none, none, none⟩ "/abs/sa-key.json" "/tmp/key.json"
        oracleAllOk).exit = 1
    ∧ (deploy_main none ⟨none, none, none⟩ "/abs/sa-key.json" "/tmp/key.json"
        oracleAllOk).trace = [] :=
  c5_missing_project_id_aborts none none "/abs/sa-key.json" "/tmp/key.json"
    oracleAllOk (fun _ _ hc _ => nomatch hc)

/-! ## claim C8 -/

/-- C8, counterexample: with all three required directories present the
check can still exit non-zero.  First, a truthy credential object without
a project_id field raises KeyError.  Second, with credentials holding a
project id, a token available and the API answering HTTP 200, an
unparsable response body raises during json.load. -/
theorem c8_structure_check_counterexample :
    check_main ⟨true, true, true⟩ (some (Json.obj [("kind", Json.str "sa")]))
        none oracleAllOk none = 1
    ∧ check_main ⟨true, true, true⟩
        (some (Json.obj [("project_id", Json.str "demo-123")]))
        none oracleHttp200 none = 1 := ⟨rfl, by decide⟩

/-- C8 (amended): the structural check exits zero exactly when the three
required directories are present, provided any resolved truthy credential
object carries a project_id field and a 200 response body parses as a JSON
object; a truthy credential value without that field, or an unparsable 200
body, crashes the run with a non-zero exit.  Otherwise the credential
state (absent, falsy, no token, any non-200 status) never changes the exit
status. -/
theorem c8_structure_check_amended (d : DirState)
    (key_file env_sa_key : Option Json) (o : Oracle) (resp_body : Option Json)
    (h1 : ∀ c, load_credentials key_file env_sa_key = some c →
        c.truthy = true → (pyIndex c "project_id").isSome)
    (h2 : ∀ pid, pyStrip (o.out (.curlApigee pid (pyStrip (o.out .printAccessToken))))
          = "200" →
        ∃ fs, resp_body = some (Json.obj fs)) :
    (check_main d key_file env_sa_key o resp_body = 0
      ↔ check_structure d = true) := by
  by_cases hs : check_structure d = true
  · rcases hload : load_credentials key_file env_sa_key with _ | c
    · simp [check_main, hs, hload]
    · by_cases ht : c.truthy = true
      · have hidx := h1 c hload ht
        rcases hpi : pyIndex c "project_id" with _ | v
        · rw [hpi] at hidx; cases hidx
        · have hapi : check_apigee_api o (pyStr v) resp_body = true := by
            by_cases htok : o.exit Cmd.printAccessToken = 0
            · by_cases hcode : pyStrip (o.out (Cmd.curlApigee (pyStr v)
                  (pyStrip (o.out Cmd.printAccessToken)))) = "200"
              · rcases h2 (pyStr v) hcode with ⟨fs, hfs⟩
                simp [check_apigee_api, htok, hcode, hfs]
              · simp [check_apigee_api, htok, hcode]
            · simp [check_apigee_api, htok]
          simp [check_main, hs, hload, ht, hpi, hapi]
      · simp [check_main, hs, hload, ht]
  · have hs1 : check_structure d = false := by
      revert hs; cases check_structure d <;> simp
    simp [check_main, hs1, hs]

/-- C8, witness: with all directories present and no credentials at all
the check exits zero. -/
theorem c8_structure_check_witness :
    (check_main ⟨true, true, true⟩ none none oracleAllOk none = 0
      ↔ check_structure ⟨true, true, true⟩ = true) :=
  c8_structure_check_amended ⟨true, true, true⟩ none none oracleAllOk none
    (fun _ hc _ => nomatch hc)
    (fun _ hp => absurd (show pyStrip "" = "200" from hp) (by decide))

end MinimalCicd
